import Mathlib

/-!
Verification of the guardrails validation-orchestration service
(`app/config.py`, `app/models.py`, `app/validators.py`, `app/main.py`).

The code is shallowly embedded as pure Lean functions.  External
collaborators (the `guardrails.hub` catalog, validator construction and
`Guard.validate` execution) are modelled as an explicit environment of
pure functions; Python exceptions become an explicit `Exc` sum
distinguishing `TypeError`, `guardrails.errors.ValidationError` and every
other exception, because the source's `except` clauses discriminate on
exactly those classes.  The registry cache (`GuardrailValidator.validator_cache`)
is threaded explicitly as an association list from validator name to the
resolved class (classes are opaque and represented by `Nat` identifiers).
Catalog lookups return `Option`; the `ImportError`/`AttributeError` cases
absorbed by `_load_validator_class`'s two `except` blocks are folded into
a `none` lookup result, exactly as the code treats them.
-/

namespace AIGuardRails

/-- Single quote character, used inside error messages. -/
def sq : String := String.singleton (Char.ofNat 39)

/-- Exceptions observable by the code's `except` clauses: `TypeError`
(caught by the inner construction handler), `ValidationError` (caught by
the first outer handler in `validate_text`) and any other exception
(caught by the final `except Exception`). -/
inductive Exc where
  | typeError (msg : String)
  | validationError (msg : String)
  | otherError (msg : String)
  deriving DecidableEq

/-- The message carried by an exception (`str(e)` in the source). -/
def Exc.msg : Exc → String
  | .typeError m => m
  | .validationError m => m
  | .otherError m => m

/-- `app/models.py` `GuardrailConfig`: a validator name plus a parameter
mapping.  Parameter values are opaque to the orchestration core, so the
mapping is embedded as an association list of string keys to string
values. -/
structure GuardrailConfig where
  name : String
  config : List (String × String)
  deriving DecidableEq

/-- `app/models.py` `FailedGuardrail`: name of the failed guardrail and
its error message. -/
structure FailedGuardrail where
  name : String
  error : String
  deriving DecidableEq

/-- The external `guardrails.hub` catalog (`importlib` + `getattr`):
`primary` models `getattr(importlib.import_module("guardrails.hub"), name, None)`
and `secondary` models the fallback
`getattr(importlib.import_module("guardrails.hub." ++ snake(name)), name, None)`.
A `none` covers both an absent attribute and an `ImportError`/`AttributeError`,
which the code's `except` blocks turn into fall-through. -/
structure Catalog where
  primary : String → Option Nat
  secondary : String → Option Nat

/-- The full external environment of `validate_text`: the catalog plus
the behaviour of validator construction and execution.
`construct1 cls params` models `validator_class(**config, on_fail=OnFailAction.EXCEPTION)`;
`construct2 cls params` models the whole retry block
`validator_class(**config)` followed by the best-effort `on_fail`
attribute assignment (any exception in that block is caught by the same
inner handler); `execute inst text` models `guard.use(instance)` followed
by `guard.validate(text)`.  All are pure functions, which is the spec's
stable-validator assumption. -/
structure Env where
  catalog : Catalog
  construct1 : Nat → List (String × String) → Except Exc Nat
  construct2 : Nat → List (String × String) → Except Exc Nat
  execute : Nat → String → Except Exc Unit

/-- Association-list lookup, the embedding of Python dict lookup for the
registry cache and the required-parameter table. -/
def assocLookup {α : Type} : List (String × α) → String → Option α
  | [], _ => none
  | (k, v) :: rest, n => if k = n then some v else assocLookup rest n

/-- `app/config.py` `ValidatorConfig.REQUIRED_CONFIGS`: the static table
from validator name to its required configuration parameter keys. -/
def REQUIRED_CONFIGS : List (String × List String) :=
  [ ("RegexMatch", ["regex"]),
    ("CompetitorCheck", ["competitors"]),
    ("ToxicLanguage", ["threshold", "validation_method"]),
    ("RestrictToTopic", ["valid_topics"]),
    ("ReadingTime", ["max_time"]),
    ("DetectPII", []),
    ("ExcludeSqlPredicates", []),
    ("ValidLength", ["min", "max"]),
    ("ValidRange", ["min", "max"]),
    ("ValidChoices", ["choices"]),
    ("BugFreePython", []),
    ("BugFreeSQL", []),
    ("ExtractedSummarySentencesMatch", []),
    ("IsHighQualityTranslation", []),
    ("LowerCase", []),
    ("OneLine", []),
    ("TwoWords", []),
    ("UpperCase", []),
    ("ValidURL", []),
    ("SimilarToDocument", ["document", "threshold"]),
    ("SimilarToList", ["standard_list", "threshold"]),
    ("Provenance", ["validation_method"]),
    ("ValidJson", []),
    ("SecretsPresent", []),
    ("ToxicityMetrics", []) ]

/-- `ValidatorConfig.get_required_configs`: table lookup defaulting to
the empty set for names absent from the table. -/
def get_required_configs (validator_name : String) : List String :=
  (assocLookup REQUIRED_CONFIGS validator_name).getD []

/-- Error message produced by `validate_config` for missing keys. -/
def missingParamsMsg (missing : List String) : String :=
  "Missing required configuration parameters: " ++ String.intercalate ", " missing

/-- `ValidatorConfig.validate_config`: returns `(is_valid, error_message)`.
Mirrors the source: an empty required set short-circuits to success;
otherwise the set difference `required - keys(config)` is computed and,
when non-empty, reported with every missing key listed. -/
def validate_config (validator_name : String) (config : List (String × String)) :
    Bool × String :=
  let required := get_required_configs validator_name
  if required.isEmpty then (true, "")
  else
    let missing := required.filter (fun k => !(config.map Prod.fst).contains k)
    if missing.isEmpty then (true, "")
    else (false, missingParamsMsg missing)

/-- `GuardrailValidator._load_validator_class` with the cache passed
explicitly.  Returns the resolved class (or `none`), the updated cache,
and the number of external catalog lookups performed by this call
(0 on a cache hit; the primary strategy counts 1 and the secondary
another 1).  Note the source caches only successful resolutions: the
final `return None` writes nothing to the cache. -/
def loadValidatorClass (cat : Catalog) (cache : List (String × Nat))
    (validator_name : String) : Option Nat × List (String × Nat) × Nat :=
  match assocLookup cache validator_name with
  | some cls => (some cls, cache, 0)
  | none =>
    match cat.primary validator_name with
    | some cls => (some cls, (validator_name, cls) :: cache, 1)
    | none =>
      match cat.secondary validator_name with
      | some cls => (some cls, (validator_name, cls) :: cache, 2)
      | none => (none, cache, 2)

/-- The cache-free resolution function: primary strategy first, then the
secondary module-path strategy. -/
def resolveName (cat : Catalog) (validator_name : String) : Option Nat :=
  match cat.primary validator_name with
  | some cls => some cls
  | none => cat.secondary validator_name

/-- Phase-1 message for an unresolvable name
(`validate_guardrail_config`). -/
def notFoundHubMsg (validator_name : String) : String :=
  "Validator " ++ sq ++ validator_name ++ sq ++ " not found. Make sure it" ++ sq ++
    "s installed from Guardrails Hub."

/-- Phase-2 message for an unresolvable name (`validate_text`). -/
def notFoundMsg (validator_name : String) : String :=
  "Validator " ++ sq ++ validator_name ++ sq ++ " not found"

/-- Message for a failed construction retry (`validate_text`). -/
def initErrorMsg (m : String) : String :=
  "Error initializing validator: " ++ m

/-- Message for the catch-all `except Exception` handler
(`validate_text`). -/
def unexpectedErrorMsg (m : String) : String :=
  "Unexpected error during validation: " ++ m

/-- `GuardrailValidator.validate_guardrail_config`: resolve the name
first (not-found is a configuration problem), then run
`validate_config`.  Returns `((is_valid, error_message), cache)`. -/
def validate_guardrail_config (env : Env) (cache : List (String × Nat))
    (guardrail : GuardrailConfig) : (Bool × String) × List (String × Nat) :=
  match loadValidatorClass env.catalog cache guardrail.name with
  | (none, cache2, _) => ((false, notFoundHubMsg guardrail.name), cache2)
  | (some _, cache2, _) => (validate_config guardrail.name guardrail.config, cache2)

/-- The error-collecting loop of `GuardrailValidator.validate_all_configs`:
for every guardrail in order, run `validate_guardrail_config` and append
`"{name}: {error}"` on failure; the loop never exits early. -/
def collectConfigErrors (env : Env) : List (String × Nat) → List GuardrailConfig →
    List String × List (String × Nat)
  | cache, [] => ([], cache)
  | cache, g :: gs =>
    let r := validate_guardrail_config env cache g
    let rest := collectConfigErrors env r.2 gs
    (if r.1.1 then rest.1 else (g.name ++ ": " ++ r.1.2) :: rest.1, rest.2)

/-- `GuardrailValidator.validate_all_configs`: `(all_valid, errors)` with
the cache threaded. -/
def validate_all_configs (env : Env) (cache : List (String × Nat))
    (guardrails : List GuardrailConfig) : (Bool × List String) × List (String × Nat) :=
  let r := collectConfigErrors env cache guardrails
  ((r.1.length == 0, r.1), r.2)

/-- Outcome of `guard.use(validator_instance)` followed by
`guard.validate(text)` under the outer handlers of `validate_text`:
clean completion passes; a `ValidationError` is recorded with its bare
message; any other exception is recorded with the
`Unexpected error during validation` prefix. -/
def execOutcome (env : Env) (inst : Nat) (text : String)
    (validator_name : String) : Option FailedGuardrail :=
  match env.execute inst text with
  | .ok _ => none
  | .error (.validationError m) => some ⟨validator_name, m⟩
  | .error (.typeError m) => some ⟨validator_name, unexpectedErrorMsg m⟩
  | .error (.otherError m) => some ⟨validator_name, unexpectedErrorMsg m⟩

/-- Construction and execution of one resolved validator class,
following the source's handler structure: the inner `except TypeError`
guards only the first construction attempt (with
`on_fail=OnFailAction.EXCEPTION`); an exception from the retry block is
reported as `Error initializing validator`; a `ValidationError` raised
by the first construction attempt is caught by the outer
`except ValidationError` and reported with its bare message; any other
exception from the first attempt reaches the catch-all handler. -/
def invokeValidator (env : Env) (cls : Nat) (text : String)
    (g : GuardrailConfig) : Option FailedGuardrail :=
  match env.construct1 cls g.config with
  | .ok inst => execOutcome env inst text g.name
  | .error (.typeError _) =>
    match env.construct2 cls g.config with
    | .ok inst => execOutcome env inst text g.name
    | .error e => some ⟨g.name, initErrorMsg e.msg⟩
  | .error (.validationError m) => some ⟨g.name, m⟩
  | .error (.otherError m) => some ⟨g.name, unexpectedErrorMsg m⟩

/-- One iteration of the `validate_text` loop body for a single
guardrail: resolve the class (threading the cache), then construct and
execute it; `none` means the guardrail passed, `some` carries the
failure entry appended by that iteration. -/
def processGuardrail (env : Env) (cache : List (String × Nat)) (text : String)
    (g : GuardrailConfig) : Option FailedGuardrail × List (String × Nat) :=
  match loadValidatorClass env.catalog cache g.name with
  | (none, cache2, _) => (some ⟨g.name, notFoundMsg g.name⟩, cache2)
  | (some cls, cache2, _) => (invokeValidator env cls text g, cache2)

/-- The `for guardrail_config in guardrails` loop of `validate_text`:
returns the failure entries in input order, the final cache, and the
trace of guardrail names processed (one per loop iteration, in order). -/
def runGuardrails (env : Env) (text : String) :
    List (String × Nat) → List GuardrailConfig →
    List FailedGuardrail × List (String × Nat) × List String
  | cache, [] => ([], cache, [])
  | cache, g :: gs =>
    let pr := processGuardrail env cache text g
    let rest := runGuardrails env text pr.2 gs
    (pr.1.toList ++ rest.1, rest.2.1, g.name :: rest.2.2)

/-- Per-iteration outcomes of the `validate_text` loop, in input order,
with the cache threaded exactly as in `runGuardrails`. -/
def guardOutcomes (env : Env) (text : String) :
    List (String × Nat) → List GuardrailConfig → List (Option FailedGuardrail)
  | _, [] => []
  | cache, g :: gs =>
    let pr := processGuardrail env cache text g
    pr.1 :: guardOutcomes env text pr.2 gs

/-- Result of `GuardrailValidator.validate_text`, with the registry
cache state and the processing trace made explicit. -/
structure RunResult where
  allPassed : Bool
  failedGuardrails : List FailedGuardrail
  cache : List (String × Nat)
  invoked : List String
  deriving DecidableEq

/-- `GuardrailValidator.validate_text`: runs the loop and computes
`all_passed = (len(failed_guardrails) == 0)`. -/
def validate_text (env : Env) (cache : List (String × Nat)) (text : String)
    (guardrails : List GuardrailConfig) : RunResult :=
  let r := runGuardrails env text cache guardrails
  ⟨r.1.length == 0, r.1, r.2.1, r.2.2⟩

/-- The two observable results of the `/validate` endpoint body in
`app/main.py`: a 400 rejection carrying the configuration errors, or a
200 response carrying the report. -/
inductive ApiResult where
  | badRequest (message : String) (errors : List String)
  | completed (passed : Bool) (failedGuardrails : List FailedGuardrail)
  deriving DecidableEq

/-- Result of one request, with cache state and execution trace. -/
structure EndpointResult where
  result : ApiResult
  cache : List (String × Nat)
  invoked : List String
  deriving DecidableEq

/-- The `/validate` endpoint body (`app/main.py` `validate_text`
handler): Phase 1 runs `validate_all_configs`; on any error the request
is rejected with HTTP 400 and the full error list, and Phase 2 is never
entered (empty trace); otherwise Phase 2 runs
`GuardrailValidator.validate_text` and its report is returned. -/
def validateEndpoint (env : Env) (cache : List (String × Nat)) (text : String)
    (guardrails : List GuardrailConfig) : EndpointResult :=
  let p1 := validate_all_configs env cache guardrails
  if p1.1.1 then
    let r := validate_text env p1.2 text guardrails
    ⟨.completed r.allPassed r.failedGuardrails, r.cache, r.invoked⟩
  else
    ⟨.badRequest "Invalid guardrail configuration(s)" p1.1.2, p1.2, []⟩

/-- The Phase-1 problem a single guardrail contributes, as a pure
function of the catalog: the not-found message when the name does not
resolve, else the `validate_config` error when required parameters are
missing, else nothing. -/
def configProblem (cat : Catalog) (g : GuardrailConfig) : Option String :=
  match resolveName cat g.name with
  | none => some (g.name ++ ": " ++ notFoundHubMsg g.name)
  | some _ =>
    let v := validate_config g.name g.config
    if v.1 then none else some (g.name ++ ": " ++ v.2)

/-- Well-formedness of a registry cache with respect to the catalog:
every cached entry is what resolution would produce.  This is the
reachable-state invariant of `validator_cache`, which starts empty and
is only ever written with catalog-resolved classes. -/
def CacheWF (cat : Catalog) (cache : List (String × Nat)) : Prop :=
  ∀ n v, (n, v) ∈ cache → resolveName cat n = some v

/-- Cache-free description of one `validate_text` loop iteration, used
to express that outcomes do not depend on the (well-formed) cache
state. -/
def processPure (env : Env) (text : String) (g : GuardrailConfig) :
    Option FailedGuardrail :=
  match resolveName env.catalog g.name with
  | none => some ⟨g.name, notFoundMsg g.name⟩
  | some cls => invokeValidator env cls text g

theorem assocLookup_mem {α : Type} {l : List (String × α)} {k : String} {v : α}
    (h : assocLookup l k = some v) : (k, v) ∈ l := by
  induction l with
  | nil => simp [assocLookup] at h
  | cons p rest ih =>
    obtain ⟨k0, v0⟩ := p
    simp only [assocLookup] at h
    split at h
    · rename_i hkn
      injection h with h2
      subst hkn
      subst h2
      exact List.mem_cons_self _ _
    · exact List.mem_cons_of_mem _ (ih h)

theorem load_fst_of_wf {cat : Catalog} {cache : List (String × Nat)} {n : String}
    (h : CacheWF cat cache) :
    (loadValidatorClass cat cache n).1 = resolveName cat n := by
  unfold loadValidatorClass
  cases hc : assocLookup cache n with
  | some v => simpa using (h n v (assocLookup_mem hc)).symm
  | none =>
    cases hp : cat.primary n with
    | some c => simp [resolveName, hp]
    | none => cases hs : cat.secondary n <;> simp [resolveName, hp, hs]

theorem load_wf {cat : Catalog} {cache : List (String × Nat)} {n : String}
    (h : CacheWF cat cache) :
    CacheWF cat (loadValidatorClass cat cache n).2.1 := by
  unfold loadValidatorClass
  cases hc : assocLookup cache n with
  | some v => simpa using h
  | none =>
    cases hp : cat.primary n with
    | some c =>
      simp only
      intro m w hm
      rcases List.mem_cons.mp hm with h1 | h2
      · rw [Prod.mk.injEq] at h1
        obtain ⟨rfl, rfl⟩ := h1
        simp [resolveName, hp]
      · exact h m w h2
    | none =>
      cases hs : cat.secondary n with
      | some c =>
        simp only
        intro m w hm
        rcases List.mem_cons.mp hm with h1 | h2
        · rw [Prod.mk.injEq] at h1
          obtain ⟨rfl, rfl⟩ := h1
          simp [resolveName, hp, hs]
        · exact h m w h2
      | none => simpa using h

theorem processGuardrail_snd {env : Env} {cache : List (String × Nat)}
    {text : String} {g : GuardrailConfig} :
    (processGuardrail env cache text g).2 =
      (loadValidatorClass env.catalog cache g.name).2.1 := by
  unfold processGuardrail
  rcases hl : loadValidatorClass env.catalog cache g.name with ⟨copt, cache2, cnt⟩
  cases copt <;> rfl

theorem processGuardrail_wf {env : Env} {cache : List (String × Nat)}
    {text : String} {g : GuardrailConfig} (h : CacheWF env.catalog cache) :
    CacheWF env.catalog (processGuardrail env cache text g).2 := by
  rw [processGuardrail_snd]
  exact load_wf h

theorem processGuardrail_fst_of_wf {env : Env} {cache : List (String × Nat)}
    {text : String} {g : GuardrailConfig} (h : CacheWF env.catalog cache) :
    (processGuardrail env cache text g).1 = processPure env text g := by
  have hf := load_fst_of_wf (n := g.name) h
  unfold processGuardrail processPure
  rcases hl : loadValidatorClass env.catalog cache g.name with ⟨copt, cache2, cnt⟩
  rw [hl] at hf
  simp only at hf
  rw [← hf]
  cases copt <;> rfl

theorem processGuardrail_name {env : Env} {cache : List (String × Nat)}
    {text : String} {g : GuardrailConfig} {e : FailedGuardrail}
    (h : (processGuardrail env cache text g).1 = some e) : e.name = g.name := by
  unfold processGuardrail invokeValidator execOutcome at h
  repeat' split at h
  all_goals try simp only [Option.some.injEq] at h
  all_goals first
  | (subst h; rfl)
  | simp at h

theorem runGuardrails_fst {env : Env} {text : String} :
    ∀ (gs : List GuardrailConfig) (cache : List (String × Nat)),
    (runGuardrails env text cache gs).1 =
      (guardOutcomes env text cache gs).reduceOption := by
  intro gs
  induction gs with
  | nil => intro cache; rfl
  | cons g rest ih =>
    intro cache
    simp only [runGuardrails, guardOutcomes]
    rw [ih]
    cases (processGuardrail env cache text g).1 <;>
      simp [List.reduceOption_cons_of_some, List.reduceOption_cons_of_none]

theorem runGuardrails_invoked {env : Env} {text : String} :
    ∀ (gs : List GuardrailConfig) (cache : List (String × Nat)),
    (runGuardrails env text cache gs).2.2 = gs.map (fun g => g.name) := by
  intro gs
  induction gs with
  | nil => intro cache; rfl
  | cons g rest ih =>
    intro cache
    simp only [runGuardrails, List.map]
    rw [ih]

theorem runGuardrails_wf {env : Env} {text : String} :
    ∀ (gs : List GuardrailConfig) (cache : List (String × Nat)),
    CacheWF env.catalog cache →
    CacheWF env.catalog (runGuardrails env text cache gs).2.1 := by
  intro gs
  induction gs with
  | nil => intro cache h; exact h
  | cons g rest ih =>
    intro cache h
    simp only [runGuardrails]
    exact ih _ (processGuardrail_wf h)

theorem guardOutcomes_length {env : Env} {text : String} :
    ∀ (gs : List GuardrailConfig) (cache : List (String × Nat)),
    (guardOutcomes env text cache gs).length = gs.length := by
  intro gs
  induction gs with
  | nil => intro cache; rfl
  | cons g rest ih =>
    intro cache
    simp only [guardOutcomes, List.length_cons]
    rw [ih]

theorem guardOutcomes_name {env : Env} {text : String} :
    ∀ (gs : List GuardrailConfig) (cache : List (String × Nat)) (i : Nat)
      {e : FailedGuardrail} {g' : GuardrailConfig},
    (guardOutcomes env text cache gs)[i]? = some (some e) →
    gs[i]? = some g' → e.name = g'.name := by
  intro gs
  induction gs with
  | nil => intro cache i e g' h1 _; simp [guardOutcomes] at h1
  | cons g rest ih =>
    intro cache i e g' h1 h2
    cases i with
    | zero =>
      simp only [guardOutcomes, List.getElem?_cons_zero, Option.some.injEq] at h1 h2
      subst h2
      exact processGuardrail_name h1
    | succ n =>
      simp only [guardOutcomes, List.getElem?_cons_succ] at h1 h2
      exact ih _ n h1 h2

theorem guardOutcomes_eq_of_wf {env : Env} {text : String} :
    ∀ (gs : List GuardrailConfig) (cache : List (String × Nat)),
    CacheWF env.catalog cache →
    guardOutcomes env text cache gs = gs.map (processPure env text) := by
  intro gs
  induction gs with
  | nil => intro cache _; rfl
  | cons g rest ih =>
    intro cache h
    simp only [guardOutcomes, List.map]
    rw [processGuardrail_fst_of_wf h, ih _ (processGuardrail_wf h)]

theorem vgc_snd {env : Env} {cache : List (String × Nat)} {g : GuardrailConfig} :
    (validate_guardrail_config env cache g).2 =
      (loadValidatorClass env.catalog cache g.name).2.1 := by
  unfold validate_guardrail_config
  rcases hl : loadValidatorClass env.catalog cache g.name with ⟨copt, cache2, cnt⟩
  cases copt <;> rfl

theorem vgc_wf {env : Env} {cache : List (String × Nat)} {g : GuardrailConfig}
    (h : CacheWF env.catalog cache) :
    CacheWF env.catalog (validate_guardrail_config env cache g).2 := by
  rw [vgc_snd]
  exact load_wf h

theorem vgc_fst_of_wf {env : Env} {cache : List (String × Nat)} {g : GuardrailConfig}
    (h : CacheWF env.catalog cache) :
    (validate_guardrail_config env cache g).1 =
      match resolveName env.catalog g.name with
      | none => (false, notFoundHubMsg g.name)
      | some _ => validate_config g.name g.config := by
  have hf := load_fst_of_wf (n := g.name) h
  unfold validate_guardrail_config
  rcases hl : loadValidatorClass env.catalog cache g.name with ⟨copt, cache2, cnt⟩
  rw [hl] at hf
  simp only at hf
  rw [← hf]
  cases copt <;> rfl

theorem collectConfigErrors_fst_of_wf {env : Env} :
    ∀ (gs : List GuardrailConfig) (cache : List (String × Nat)),
    CacheWF env.catalog cache →
    (collectConfigErrors env cache gs).1 =
      gs.filterMap (configProblem env.catalog) := by
  intro gs
  induction gs with
  | nil => intro cache _; rfl
  | cons g rest ih =>
    intro cache h
    simp only [collectConfigErrors, List.filterMap_cons]
    rw [ih _ (vgc_wf h), vgc_fst_of_wf h]
    unfold configProblem
    cases hres : resolveName env.catalog g.name with
    | none => simp
    | some cls =>
      cases hv : (validate_config g.name g.config).1 <;> simp [hv]

theorem collectConfigErrors_wf {env : Env} :
    ∀ (gs : List GuardrailConfig) (cache : List (String × Nat)),
    CacheWF env.catalog cache →
    CacheWF env.catalog (collectConfigErrors env cache gs).2 := by
  intro gs
  induction gs with
  | nil => intro cache h; exact h
  | cons g rest ih =>
    intro cache h
    simp only [collectConfigErrors]
    exact ih _ (vgc_wf h)

theorem reduceOption_order {α : Type} :
    ∀ (l : List (Option α)) (i j : Nat) {a b : α}, i < j →
    l[i]? = some (some a) → l[j]? = some (some b) →
    ∃ ia ib : Nat, ia < ib ∧ l.reduceOption[ia]? = some a ∧
      l.reduceOption[ib]? = some b := by
  intro l
  induction l with
  | nil => intro i j a b _ h1 _; simp at h1
  | cons o t ih =>
    intro i j a b hij h1 h2
    cases j with
    | zero => omega
    | succ j2 =>
      rw [List.getElem?_cons_succ] at h2
      cases i with
      | zero =>
        rw [List.getElem?_cons_zero] at h1
        injection h1 with h1
        subst h1
        have hb : b ∈ t.reduceOption := by
          rw [List.reduceOption_mem_iff]
          exact List.getElem?_mem h2
        obtain ⟨ib, hbl, hib⟩ := List.getElem_of_mem hb
        refine ⟨0, ib + 1, Nat.succ_pos ib, ?_, ?_⟩
        · simp [List.reduceOption_cons_of_some]
        · simp only [List.reduceOption_cons_of_some, List.getElem?_cons_succ]
          exact List.getElem?_eq_some.mpr ⟨hbl, hib⟩
      | succ i2 =>
        rw [List.getElem?_cons_succ] at h1
        obtain ⟨ia, ib, hlt, ha, hb⟩ := ih i2 j2 (by omega) h1 h2
        cases o with
        | none =>
          exact ⟨ia, ib, hlt, by simpa [List.reduceOption_cons_of_none] using ha,
            by simpa [List.reduceOption_cons_of_none] using hb⟩
        | some x =>
          refine ⟨ia + 1, ib + 1, by omega, ?_, ?_⟩
          · simpa [List.reduceOption_cons_of_some, List.getElem?_cons_succ] using ha
          · simpa [List.reduceOption_cons_of_some, List.getElem?_cons_succ] using hb

/-- C1: for every request (text, guardrails), if any guardrail's name is
unresolvable in the registry or its config is missing a required
parameter (i.e. it has a `configProblem`), the endpoint rejects the
request with the complete list of per-validator configuration problems —
one entry per problem guardrail, gathered by `filterMap` over the whole
input list, not just the first — and Phase 2 never runs: the trace of
executed validators is empty, so `validate_text` is never called.  The
cache hypothesis is the reachable-state invariant of the registry (the
cache starts empty and only ever stores catalog-resolved classes). -/
theorem claim1_phase1_rejects_with_full_list (env : Env)
    (cache : List (String × Nat)) (text : String) (gs : List GuardrailConfig)
    (hwf : CacheWF env.catalog cache)
    (hbad : ∃ g ∈ gs, configProblem env.catalog g ≠ none) :
    (validateEndpoint env cache text gs).result =
      ApiResult.badRequest "Invalid guardrail configuration(s)"
        (gs.filterMap (configProblem env.catalog)) ∧
    (validateEndpoint env cache text gs).invoked = [] := by
  have herr : (collectConfigErrors env cache gs).1 =
      gs.filterMap (configProblem env.catalog) :=
    collectConfigErrors_fst_of_wf gs cache hwf
  have hne : gs.filterMap (configProblem env.catalog) ≠ [] := by
    obtain ⟨g, hg, hp⟩ := hbad
    intro hnil
    exact hp (List.filterMap_eq_nil_iff.mp hnil g hg)
  have hlen : ((gs.filterMap (configProblem env.catalog)).length == 0) = false := by
    rw [beq_eq_false_iff_ne]
    intro h0
    exact hne (List.length_eq_zero.mp h0)
  constructor <;>
    simp only [validateEndpoint, validate_all_configs, herr, hlen, Bool.false_eq_true,
      if_false]

/-- A Phase 1 environment for the C1 witness: an empty catalog, so every
guardrail name is unresolvable. -/
def c1Env : Env :=
  ⟨⟨fun _ => none, fun _ => none⟩,
   fun _ _ => Except.error (Exc.otherError "x"),
   fun _ _ => Except.error (Exc.otherError "x"),
   fun _ _ => Except.error (Exc.otherError "x")⟩

theorem claim1_witness :
    (validateEndpoint c1Env [] "Call me" [⟨"RegexMatch", []⟩]).result =
      ApiResult.badRequest "Invalid guardrail configuration(s)"
        ([⟨"RegexMatch", []⟩].filterMap (configProblem c1Env.catalog)) ∧
    (validateEndpoint c1Env [] "Call me" [⟨"RegexMatch", []⟩]).invoked = [] :=
  claim1_phase1_rejects_with_full_list c1Env [] "Call me" [⟨"RegexMatch", []⟩]
    (fun n v h => absurd h (List.not_mem_nil (n, v))) (by decide)

/-- C2: `validate_config` succeeds exactly when every required parameter
of the validator name (per the static table, defaulting to the empty set
for unknown names) is among the supplied parameter keys; on failure the
error message lists every missing key.  `validate_config` takes no
registry or environment argument, so its result cannot depend on whether
the name resolves in the registry. -/
theorem claim2_validate_config_spec (validator_name : String)
    (config : List (String × String)) :
    ((validate_config validator_name config).1 = true ↔
      ∀ k ∈ get_required_configs validator_name, k ∈ config.map Prod.fst) ∧
    ((validate_config validator_name config).1 = false →
      ∃ missing : List String,
        (∀ k, k ∈ missing ↔
          (k ∈ get_required_configs validator_name ∧ k ∉ config.map Prod.fst)) ∧
        (validate_config validator_name config).2 =
          "Missing required configuration parameters: " ++
            String.intercalate ", " missing) := by
  unfold validate_config
  cases hreq : (get_required_configs validator_name).isEmpty
  · simp only [hreq, Bool.false_eq_true, if_false]
    cases hmiss : ((get_required_configs validator_name).filter
        (fun k => !(config.map Prod.fst).contains k)).isEmpty
    · simp only [hmiss, Bool.false_eq_true, if_false]
      constructor
      · constructor
        · intro hcontra
          simp at hcontra
        · intro hall
          exfalso
          have hne : (get_required_configs validator_name).filter
              (fun k => !(config.map Prod.fst).contains k) ≠ [] := by
            intro h0
            rw [h0] at hmiss
            simp at hmiss
          obtain ⟨k, hk⟩ := List.exists_mem_of_ne_nil _ hne
          have hkf := List.mem_filter.mp hk
          have hmem := hall k hkf.1
          have hcon : k ∉ config.map Prod.fst := by simpa using hkf.2
          exact hcon hmem
      · intro _
        refine ⟨(get_required_configs validator_name).filter
          (fun k => !(config.map Prod.fst).contains k), ?_, rfl⟩
        intro k
        rw [List.mem_filter]
        simp
    · simp only [hmiss, if_true]
      constructor
      · constructor
        · intro _ k hk
          rw [List.isEmpty_iff, List.filter_eq_nil_iff] at hmiss
          have := hmiss k hk
          simpa using this
        · intro _
          trivial
      · intro hcontra
        simp at hcontra
  · simp only [hreq, if_true]
    constructor
    · constructor
      · intro _ k hk
        rw [List.isEmpty_iff] at hreq
        rw [hreq] at hk
        exact absurd hk (List.not_mem_nil k)
      · intro _
        trivial
    · intro hcontra
      simp at hcontra

theorem claim2_witness :
    ∃ missing : List String,
      (∀ k, k ∈ missing ↔ (k ∈ get_required_configs "RegexMatch" ∧
        k ∉ ([] : List (String × String)).map Prod.fst)) ∧
      (validate_config "RegexMatch" []).2 =
        "Missing required configuration parameters: " ++
          String.intercalate ", " missing :=
  (claim2_validate_config_spec "RegexMatch" []).2 (by decide)

/-- C3: whenever Phase 1 accepts the whole batch, `validate_text`
processes every guardrail of the input list exactly once, in input
order: its processing trace is exactly the list of input names.  Since
the trace is produced unconditionally by the loop (each iteration ends
in `continue` or falls through, never in an early return), a failure of
one guardrail never prevents the remaining ones from being invoked. -/
theorem claim3_phase2_processes_all_in_order (env : Env)
    (cache : List (String × Nat)) (text : String) (gs : List GuardrailConfig)
    (_hvalid : (validate_all_configs env cache gs).1.1 = true) :
    (validate_text env (validate_all_configs env cache gs).2 text gs).invoked =
      gs.map (fun g => g.name) :=
  runGuardrails_invoked gs ((validate_all_configs env cache gs).2)

/-- An environment for the C3 witness: every name resolves, but the
first construction attempt always fails with a non-TypeError, so every
guardrail fails — and is still processed. -/
def c3Env : Env :=
  ⟨⟨fun _ => some 1, fun _ => none⟩,
   fun _ _ => Except.error (Exc.otherError "boom"),
   fun _ _ => Except.ok 2,
   fun _ _ => Except.ok ()⟩

def c3Guardrails : List GuardrailConfig :=
  [⟨"DetectPII", []⟩, ⟨"LowerCase", []⟩]

theorem claim3_witness :
    (validate_text c3Env (validate_all_configs c3Env [] c3Guardrails).2 "hello"
      c3Guardrails).invoked = ["DetectPII", "LowerCase"] := by
  have h := claim3_phase2_processes_all_in_order c3Env [] "hello" c3Guardrails
    (by decide)
  simpa using h

theorem invokeValidator_none_iff (env : Env) (cls : Nat) (text : String)
    (g : GuardrailConfig) :
    invokeValidator env cls text g = none ↔
      ((∃ inst : Nat, env.construct1 cls g.config = Except.ok inst ∧
          env.execute inst text = Except.ok ()) ∨
       (∃ m : String, ∃ inst : Nat,
          env.construct1 cls g.config = Except.error (Exc.typeError m) ∧
          env.construct2 cls g.config = Except.ok inst ∧
          env.execute inst text = Except.ok ())) := by
  unfold invokeValidator execOutcome
  cases hc1 : env.construct1 cls g.config with
  | ok inst =>
    cases he : env.execute inst text with
    | ok u => cases u; simp [he]
    | error e => cases e <;> simp [he]
  | error e =>
    cases e with
    | typeError m =>
      cases hc2 : env.construct2 cls g.config with
      | ok inst =>
        cases he : env.execute inst text with
        | ok u => cases u; simp [hc2, he]
        | error e2 => cases e2 <;> simp [hc2, he]
      | error e2 => simp [hc2]
    | validationError m => simp
    | otherError m => simp

/-- C4: the per-validator boundary of `validate_text` never propagates a
failure: for every behaviour of the catalog, construction and execution
(including every exception kind at every step), the loop iteration is a
total function whose result is `none` exactly when the validator
resolved, was constructed (directly or via the `on_fail` retry) and ran
cleanly; every other combination — not-found, either construction
failure, or any exception during execution — is captured as the `some`
failure-entry outcome rather than escaping. -/
theorem claim4_every_failure_captured (env : Env) (cache : List (String × Nat))
    (text : String) (g : GuardrailConfig) :
    (processGuardrail env cache text g).1 = none ↔
      ∃ cls : Nat, (loadValidatorClass env.catalog cache g.name).1 = some cls ∧
        ((∃ inst : Nat, env.construct1 cls g.config = Except.ok inst ∧
            env.execute inst text = Except.ok ()) ∨
         (∃ m : String, ∃ inst : Nat,
            env.construct1 cls g.config = Except.error (Exc.typeError m) ∧
            env.construct2 cls g.config = Except.ok inst ∧
            env.execute inst text = Except.ok ())) := by
  unfold processGuardrail
  rcases hl : loadValidatorClass env.catalog cache g.name with ⟨copt, cache2, cnt⟩
  cases copt with
  | none => simp
  | some cls => simp [invokeValidator_none_iff]

/-- Catalog in which no name resolves, exhibiting that failed
resolutions are not cached. -/
def c5FailCatalog : Catalog := ⟨fun _ => none, fun _ => none⟩

/-- C5 counterexample: resolving "RegexMatch" against an empty catalog
definitively fails (both strategies are tried, returning nothing), yet
the cache is left unchanged, and an immediately following call for the
same name performs 2 catalog lookups again instead of the promised 0:
the source's `_load_validator_class` only writes the cache on success
(`return None` stores nothing), so the claim that a definitive failure
is memoized and never re-invokes the catalog is false. -/
theorem claim5_counterexample :
    (loadValidatorClass c5FailCatalog [] "RegexMatch").1 = none ∧
    (loadValidatorClass c5FailCatalog [] "RegexMatch").2.1 = [] ∧
    (loadValidatorClass c5FailCatalog
      ((loadValidatorClass c5FailCatalog [] "RegexMatch").2.1) "RegexMatch").2.2 = 2 ∧
    ¬ (loadValidatorClass c5FailCatalog
      ((loadValidatorClass c5FailCatalog [] "RegexMatch").2.1) "RegexMatch").2.2 = 0 := by
  decide

/-- C5 (amended): only SUCCESSFUL resolutions are memoized.  After a
call that resolved a name to a class, every later call for that name
returns the same class from the cache with zero further catalog
lookups; after a call that definitively failed to resolve, nothing was
cached (the cache is returned unchanged) and that same call already
performed both catalog lookups — so a later call re-invokes the catalog
identically rather than being served from the cache. -/
theorem claim5_memoization_amended (cat : Catalog) (cache : List (String × Nat))
    (validator_name : String) :
    (∀ (cls : Nat) (cache2 : List (String × Nat)) (k : Nat),
      loadValidatorClass cat cache validator_name = (some cls, cache2, k) →
      loadValidatorClass cat cache2 validator_name = (some cls, cache2, 0)) ∧
    ((loadValidatorClass cat cache validator_name).1 = none →
      (loadValidatorClass cat cache validator_name).2.1 = cache ∧
      (loadValidatorClass cat cache validator_name).2.2 = 2) := by
  constructor
  · intro cls cache2 k h
    unfold loadValidatorClass at h ⊢
    cases hc : assocLookup cache validator_name with
    | some v =>
      rw [hc] at h
      simp only [Prod.mk.injEq, Option.some.injEq] at h
      obtain ⟨rfl, rfl, rfl⟩ := h
      rw [hc]
    | none =>
      rw [hc] at h
      cases hp : cat.primary validator_name with
      | some c =>
        rw [hp] at h
        simp only [Prod.mk.injEq, Option.some.injEq] at h
        obtain ⟨rfl, rfl, rfl⟩ := h
        simp [assocLookup]
      | none =>
        rw [hp] at h
        cases hs : cat.secondary validator_name with
        | some c =>
          rw [hs] at h
          simp only [Prod.mk.injEq, Option.some.injEq] at h
          obtain ⟨rfl, rfl, rfl⟩ := h
          simp [assocLookup]
        | none =>
          rw [hs] at h
          simp at h
  · intro h
    unfold loadValidatorClass at h ⊢
    cases hc : assocLookup cache validator_name with
    | some v => simp [hc] at h
    | none =>
      cases hp : cat.primary validator_name with
      | some c => simp [hc, hp] at h
      | none =>
        cases hs : cat.secondary validator_name with
        | some c => simp [hc, hp, hs] at h
        | none => simp [hc, hp, hs]

/-- Catalog resolving only "RegexMatch", for the C5 witness. -/
def c5Catalog : Catalog :=
  ⟨fun n => if n = "RegexMatch" then some 7 else none, fun _ => none⟩

theorem claim5_witness :
    loadValidatorClass c5Catalog [("RegexMatch", 7)] "RegexMatch" =
      (some 7, [("RegexMatch", 7)], 0) :=
  (claim5_memoization_amended c5Catalog [] "RegexMatch").1 7 [("RegexMatch", 7)] 1
    (by decide)

/-- Environment for the C6 counterexample: the name resolves, but the
first construction attempt raises a non-TypeError exception. -/
def c6Env : Env :=
  ⟨⟨fun _ => some 1, fun _ => none⟩,
   fun _ _ => Except.error (Exc.otherError "boom"),
   fun _ _ => Except.ok 2,
   fun _ _ => Except.ok ()⟩

/-- C6 counterexample: a construction failure that is not the
unsupported-`on_fail` `TypeError` case — here a constructor raising a
generic exception with message "boom" on the first attempt — is
recorded as the `Unexpected error during validation` outcome, not as
the claimed `Error initializing validator` construction-error variant:
the inner handler catches only `TypeError`, so every other
construction exception falls through to the catch-all. -/
theorem claim6_counterexample :
    (processGuardrail c6Env [] "some text" ⟨"DetectPII", []⟩).1 =
      some ⟨"DetectPII", unexpectedErrorMsg "boom"⟩ ∧
    unexpectedErrorMsg "boom" ≠ initErrorMsg "boom" := by
  constructor
  · rfl
  · decide

/-- C6 (amended): for a guardrail whose class resolves, the
construction-error outcome (`Error initializing validator`) is produced
exactly by the retry path: the first construction attempt (with
`on_fail`) raises `TypeError` and the retry without it raises any
exception.  A non-TypeError exception from the first attempt is instead
recorded as the catch-all `Unexpected error during validation` outcome
(or, when it is a `ValidationError`, as a bare validation-failure
message). -/
theorem claim6_construction_error_amended (env : Env)
    (cache : List (String × Nat)) (text : String) (g : GuardrailConfig)
    (cls : Nat)
    (hres : (loadValidatorClass env.catalog cache g.name).1 = some cls) :
    (∀ (m : String) (e : Exc),
      env.construct1 cls g.config = Except.error (Exc.typeError m) →
      env.construct2 cls g.config = Except.error e →
      (processGuardrail env cache text g).1 = some ⟨g.name, initErrorMsg e.msg⟩) ∧
    (∀ m : String, env.construct1 cls g.config = Except.error (Exc.otherError m) →
      (processGuardrail env cache text g).1 =
        some ⟨g.name, unexpectedErrorMsg m⟩) ∧
    (∀ m : String,
      env.construct1 cls g.config = Except.error (Exc.validationError m) →
      (processGuardrail env cache text g).1 = some ⟨g.name, m⟩) := by
  unfold processGuardrail
  rcases hl : loadValidatorClass env.catalog cache g.name with ⟨copt, cache2, cnt⟩
  rw [hl] at hres
  simp only at hres
  subst hres
  refine ⟨?_, ?_, ?_⟩
  · intro m e h1 h2
    simp [invokeValidator, h1, h2]
  · intro m h1
    simp [invokeValidator, h1]
  · intro m h1
    simp [invokeValidator, h1]

/-- Environment for the C6 witness: first construction raises
`TypeError`, the retry raises a generic exception. -/
def c6WitnessEnv : Env :=
  ⟨⟨fun _ => some 1, fun _ => none⟩,
   fun _ _ => Except.error (Exc.typeError "no on_fail"),
   fun _ _ => Except.error (Exc.otherError "bad args"),
   fun _ _ => Except.ok ()⟩

theorem claim6_witness :
    (processGuardrail c6WitnessEnv [] "some text" ⟨"DetectPII", []⟩).1 =
      some ⟨"DetectPII", initErrorMsg "bad args"⟩ :=
  (claim6_construction_error_amended c6WitnessEnv [] "some text" ⟨"DetectPII", []⟩ 1
    (by decide)).1 "no on_fail" (Exc.otherError "bad args") rfl rfl

/-- C7: failures appear in the report in the same relative order as
their guardrails appear in the input list: if the loop iterations for
positions i < j both produce a failure entry, the entry from position i
precedes the entry from position j in `failed_guardrails`. -/
theorem claim7_failures_preserve_input_order (env : Env)
    (cache : List (String × Nat)) (text : String) (gs : List GuardrailConfig)
    (i j : Nat) (a b : FailedGuardrail) (hij : i < j)
    (ha : (guardOutcomes env text cache gs)[i]? = some (some a))
    (hb : (guardOutcomes env text cache gs)[j]? = some (some b)) :
    ∃ ia ib : Nat, ia < ib ∧
      (validate_text env cache text gs).failedGuardrails[ia]? = some a ∧
      (validate_text env cache text gs).failedGuardrails[ib]? = some b := by
  have hfail : (validate_text env cache text gs).failedGuardrails =
      (guardOutcomes env text cache gs).reduceOption := runGuardrails_fst gs cache
  rw [hfail]
  exact reduceOption_order _ i j hij ha hb

/-- Environment for the C7 witness: nothing resolves, so every
guardrail fails with a not-found entry. -/
def c7Env : Env :=
  ⟨⟨fun _ => none, fun _ => none⟩,
   fun _ _ => Except.ok 1,
   fun _ _ => Except.ok 1,
   fun _ _ => Except.ok ()⟩

theorem claim7_witness :
    ∃ ia ib : Nat, ia < ib ∧
      (validate_text c7Env [] "txt"
        [⟨"CompetitorCheck", []⟩, ⟨"ToxicLanguage", []⟩]).failedGuardrails[ia]? =
        some ⟨"CompetitorCheck", notFoundMsg "CompetitorCheck"⟩ ∧
      (validate_text c7Env [] "txt"
        [⟨"CompetitorCheck", []⟩, ⟨"ToxicLanguage", []⟩]).failedGuardrails[ib]? =
        some ⟨"ToxicLanguage", notFoundMsg "ToxicLanguage"⟩ :=
  claim7_failures_preserve_input_order c7Env [] "txt"
    [⟨"CompetitorCheck", []⟩, ⟨"ToxicLanguage", []⟩] 0 1
    ⟨"CompetitorCheck", notFoundMsg "CompetitorCheck"⟩
    ⟨"ToxicLanguage", notFoundMsg "ToxicLanguage"⟩
    (by decide) (by decide) (by decide)

/-- C8: the report's `all_passed` flag is true iff `failed_guardrails`
is empty — the source computes it as `len(failed_guardrails) == 0`. -/
theorem claim8_all_passed_iff_no_failures (env : Env)
    (cache : List (String × Nat)) (text : String) (gs : List GuardrailConfig) :
    ((validate_text env cache text gs).allPassed = true) ↔
      (validate_text env cache text gs).failedGuardrails = [] := by
  show ((runGuardrails env text cache gs).1.length == 0) = true ↔
    (runGuardrails env text cache gs).1 = []
  rw [beq_iff_eq, List.length_eq_zero]

/-- C9: with stable (pure) validator behaviour, running `validate_text`
again on the same (text, guardrails) pair — starting from the cache
state left by the first run — yields the identical report: the same
`all_passed` flag, the same failure entries in the same order, and the
same processing trace.  The hypothesis is the registry's reachable-state
invariant (the cache holds only catalog-resolved classes). -/
theorem claim9_idempotent_reports (env : Env) (cache : List (String × Nat))
    (text : String) (gs : List GuardrailConfig)
    (hwf : CacheWF env.catalog cache) :
    (validate_text env cache text gs).allPassed =
      (validate_text env (validate_text env cache text gs).cache text gs).allPassed ∧
    (validate_text env cache text gs).failedGuardrails =
      (validate_text env (validate_text env cache text gs).cache text
        gs).failedGuardrails ∧
    (validate_text env cache text gs).invoked =
      (validate_text env (validate_text env cache text gs).cache text gs).invoked := by
  have hwf2 : CacheWF env.catalog (runGuardrails env text cache gs).2.1 :=
    runGuardrails_wf gs cache hwf
  have hfst : (runGuardrails env text cache gs).1 =
      (runGuardrails env text (runGuardrails env text cache gs).2.1 gs).1 := by
    rw [runGuardrails_fst, runGuardrails_fst, guardOutcomes_eq_of_wf gs cache hwf,
      guardOutcomes_eq_of_wf gs _ hwf2]
  refine ⟨?_, hfst, ?_⟩
  · show ((runGuardrails env text cache gs).1.length == 0) =
      ((runGuardrails env text (runGuardrails env text cache gs).2.1 gs).1.length == 0)
    rw [hfst]
  · show (runGuardrails env text cache gs).2.2 =
      (runGuardrails env text (runGuardrails env text cache gs).2.1 gs).2.2
    rw [runGuardrails_invoked, runGuardrails_invoked]

/-- Environment for the C9 witness: the name resolves and the validator
rejects every text. -/
def c9Env : Env :=
  ⟨⟨fun _ => some 3, fun _ => none⟩,
   fun _ _ => Except.ok 4,
   fun _ _ => Except.ok 4,
   fun _ _ => Except.error (Exc.validationError "no match")⟩

theorem claim9_witness :
    (validate_text c9Env [] "txt"
      [⟨"RegexMatch", [("regex", "x")]⟩]).failedGuardrails =
    (validate_text c9Env
      (validate_text c9Env [] "txt" [⟨"RegexMatch", [("regex", "x")]⟩]).cache
      "txt" [⟨"RegexMatch", [("regex", "x")]⟩]).failedGuardrails :=
  (claim9_idempotent_reports c9Env [] "txt" [⟨"RegexMatch", [("regex", "x")]⟩]
    (fun n v h => absurd h (List.not_mem_nil (n, v)))).2.1

/-- C10: the loop produces exactly one outcome slot per input guardrail
(in order), the report is the in-order compaction of those outcomes —
so each input guardrail contributes at most one entry and the report
never has more entries than input guardrails — and each entry's name
equals the name of the input guardrail at its originating position.  A
guardrail listed twice occupies two slots and may therefore contribute
two entries. -/
theorem claim10_entries_match_inputs (env : Env) (cache : List (String × Nat))
    (text : String) (gs : List GuardrailConfig) :
    (validate_text env cache text gs).failedGuardrails =
      (guardOutcomes env text cache gs).reduceOption ∧
    (guardOutcomes env text cache gs).length = gs.length ∧
    (validate_text env cache text gs).failedGuardrails.length ≤ gs.length ∧
    (∀ (i : Nat) (e : FailedGuardrail) (g' : GuardrailConfig),
      (guardOutcomes env text cache gs)[i]? = some (some e) →
      gs[i]? = some g' → e.name = g'.name) := by
  have h1 : (validate_text env cache text gs).failedGuardrails =
      (guardOutcomes env text cache gs).reduceOption := runGuardrails_fst gs cache
  refine ⟨h1, guardOutcomes_length gs cache, ?_, fun i e g' => guardOutcomes_name gs cache i⟩
  rw [h1]
  calc (guardOutcomes env text cache gs).reduceOption.length
      ≤ (guardOutcomes env text cache gs).length := List.reduceOption_length_le _
    _ = gs.length := guardOutcomes_length gs cache

/-- Environment for the C10 witness: nothing resolves, so a duplicated
guardrail contributes two entries. -/
def c10Env : Env :=
  ⟨⟨fun _ => none, fun _ => none⟩,
   fun _ _ => Except.ok 1,
   fun _ _ => Except.ok 1,
   fun _ _ => Except.ok ()⟩

theorem claim10_witness :
    (validate_text c10Env [] "txt"
      [⟨"ValidURL", []⟩, ⟨"ValidURL", []⟩]).failedGuardrails.length ≤ 2 := by
  have h := (claim10_entries_match_inputs c10Env [] "txt"
    [⟨"ValidURL", []⟩, ⟨"ValidURL", []⟩]).2.2.1
  simpa using h

end AIGuardRails
